import Mathlib

/-!
Verification development for the Aquaticdronetests-dashboard-flask repository.

The Python source (src/app.py, src/simulation.py) is shallowly embedded below:
pure computations become Lean functions over `ℚ`; calls to `random.*`,
`np.sin`/`math.sin` and the wall clock are modelled as explicit oracle
arguments (the code reads them as opaque numeric inputs); module-level
mutable globals become fields of an explicit state record threaded through
step functions.  Missing channel values (Python `None`) are `Option ℚ`.
-/

/-! ## Threshold configuration (src/app.py lines 54-74) -/

def DRONE_TURBIDITY_THRESHOLD : ℚ := 41.0
def DRONE_TEMPERATURE_THRESHOLD : ℚ := 32.0
def DRONE_CONDUCTIVITY_THRESHOLD : ℚ := 12.0
def DRONE_PH_THRESHOLD_LOW : ℚ := 6.5
def DRONE_PH_THRESHOLD_HIGH : ℚ := 7.5
def DRONE_DO_THRESHOLD : ℚ := 5.0

def ALERT_THRESHOLD : ℕ := 3

def DRONE_SERIAL_PORT : String := "COM4"
def BUOY_SERIAL_PORT : String := "COM5"

/-! ## Numeric Signal Model (src/simulation.py, SensorSimulator.get_value, lines 25-43)

The sinusoidal factor `time_factor = sin(2π·hour_of_day/cycle + offset)` and the
draw `noise = random.uniform(-noise_level, noise_level)` are passed in as oracle
arguments `time_factor` and `noise`; the rest of the body is embedded verbatim:
`value = base + time_factor * variation_range / 2 + noise` followed by the clamp
`max(min_val, min(value, max_val))` with `min_val = base - variation_range`,
`max_val = base + variation_range`. -/

def SensorSimulator.get_value (base_value variation_range time_factor noise : ℚ) : ℚ :=
  let value := base_value + time_factor * variation_range / 2 + noise
  let min_val := base_value - variation_range
  let max_val := base_value + variation_range
  max min_val (min value max_val)

/-! ## Threshold Evaluator and Alert Aggregator (src/app.py, data_logger, lines 512-571)

The drone block of `data_logger` first checks that all five channel values are
present (`drone_data_available = all(v is not None for v in ...)`); only then
does it count threshold violations, store a `DroneSensorData` row with the
`above_threshold` flag, and create a `SystemAlert` row exactly when
`threshold_count >= ALERT_THRESHOLD`. -/

/-- Violation count of the five drone channels, in the order the code checks
them: turbidity, temperature, conductivity, pH band, dissolved oxygen. -/
def droneThresholdCount (turb temp cond ph dox : ℚ) : ℕ :=
  (if turb > DRONE_TURBIDITY_THRESHOLD then 1 else 0) +
  (if temp > DRONE_TEMPERATURE_THRESHOLD then 1 else 0) +
  (if cond > DRONE_CONDUCTIVITY_THRESHOLD then 1 else 0) +
  (if ph < DRONE_PH_THRESHOLD_LOW ∨ ph > DRONE_PH_THRESHOLD_HIGH then 1 else 0) +
  (if dox < DRONE_DO_THRESHOLD then 1 else 0)

/-- Outcome of one drone iteration of `data_logger` when the data is available:
the counted violations, the `above_threshold` flag stored on the sensor row,
and the `SystemAlert` row (carrying the count in its message) or `none`. -/
structure DroneLogOutcome where
  threshold_count : ℕ
  above_threshold : Bool
  alert : Option ℕ
  deriving DecidableEq

/-- Evaluation performed by `data_logger` once `drone_data_available` holds
(src/app.py lines 531-571). -/
def droneLogEval (turb temp cond ph dox : ℚ) : DroneLogOutcome :=
  let threshold_count := droneThresholdCount turb temp cond ph dox
  let above_threshold := decide (threshold_count ≥ ALERT_THRESHOLD)
  { threshold_count := threshold_count
    above_threshold := above_threshold
    alert := if above_threshold then some threshold_count else none }

/-- The drone block of `data_logger` over possibly-missing channel values
(src/app.py lines 518-571): if any of the five values is `None` the whole
block is skipped (no row, no evaluation, no alert), modelled by `none`. -/
def data_logger_drone (turb temp cond ph dox : Option ℚ) : Option DroneLogOutcome :=
  match turb, temp, cond, ph, dox with
  | some tu, some te, some co, some p, some d => some (droneLogEval tu te co p d)
  | _, _, _, _, _ => none

/-! ## Serial port selection (src/app.py, connect_to_drone lines 267-303 and
connect_to_buoy lines 306-338)

An enumerated port (`serial.tools.list_ports.comports()`) carries a device
identifier and a human-readable description.  The drone loop picks the first
port whose description contains the substring Arduino or USB, else the first
enumerated port, else the configured `DRONE_SERIAL_PORT`.  The buoy loop picks
the first port whose device contains the substring COM5 or ttyUSB, else the
configured `BUOY_SERIAL_PORT` directly — it has no first-enumerated-port step. -/

structure PortInfo where
  device : String
  description : String
  deriving DecidableEq

/-- Substring containment over the character list, modelling the Python
expression `needle in hay` on strings. -/
def containsSubAux (needle : List Char) : List Char → Bool
  | [] => needle.isEmpty
  | c :: rest => needle.isPrefixOf (c :: rest) || containsSubAux needle rest

def containsSub (needle hay : String) : Bool :=
  containsSubAux needle.data hay.data

/-- Hint test of the drone loop: `Arduino in port.description or USB in
port.description` (quotes of the Python string literals dropped) (src/app.py line 280). -/
def dronePortHint (p : PortInfo) : Bool :=
  containsSub ("Arduino") p.description || containsSub ("USB") p.description

/-- Hint test of the buoy loop: `COM5 in port.device or ttyUSB in
port.device` (quotes of the Python string literals dropped) (src/app.py line 318) — it inspects the device, not the
description. -/
def buoyPortHint (p : PortInfo) : Bool :=
  containsSub ("COM5") p.device || containsSub ("ttyUSB") p.device

/-- The `for port in ports: ... break` search common to both connect
functions: device of the first port satisfying the hint, if any. -/
def findHintPort (hint : PortInfo → Bool) : List PortInfo → Option String
  | [] => none
  | p :: rest => if hint p then some p.device else findHintPort hint rest

/-- Port chosen by `connect_to_drone` (src/app.py lines 277-288): first hint
match, else `ports[0].device` when any port is enumerated, else
`DRONE_SERIAL_PORT`. -/
def connect_to_drone_port (ports : List PortInfo) : String :=
  match findHintPort dronePortHint ports with
  | some d => d
  | none =>
    match ports with
    | [] => DRONE_SERIAL_PORT
    | p :: _ => p.device

/-- Port chosen by `connect_to_buoy` (src/app.py lines 315-323): first hint
match, else `BUOY_SERIAL_PORT`; enumerated ports that fail the hint are
ignored. -/
def connect_to_buoy_port (ports : List PortInfo) : String :=
  match findHintPort buoyPortHint ports with
  | some d => d
  | none => BUOY_SERIAL_PORT

/-! ## Wire-line encoding (src/simulation.py, DroneSimulation.get_serial_data
lines 157-173 and BuoySimulation.get_serial_data lines 324-346)

Both encoders build one line of `KEY:VALUE` fields joined by `|`, each value
rendered by a Python fixed-point format spec: `.1f` for every water-quality,
weather and energy channel and `.6f` for LAT and LON.  The fixed-point
rendering is embedded structurally: a formatted value keeps its sign, integer
part and the exact list of fraction digit characters, so the number of decimal
places of a field is the length of that list.  Rounding is modelled half-up on
exact rationals; CPython rounds the binary double half-to-even, which agrees
everywhere except exact representable ties, and no claim below depends on tie
behaviour. -/

/-- Fraction digit characters of `n`, exactly `digits` of them, most
significant first (leading zeros kept), as a format spec emits them. -/
def fracDigitChars : ℕ → ℕ → List Char
  | 0, _ => []
  | d + 1, n => fracDigitChars d (n / 10) ++ [Nat.digitChar (n % 10)]

/-- Structural form of a fixed-point rendered value: sign, integer part and
the fraction digit characters after the decimal point. -/
structure FixedStr where
  neg : Bool
  ipart : ℕ
  frac : List Char
  deriving DecidableEq

/-- Fixed-point rendering of `q` with `digits` decimal places, the embedding of
a Python format spec `.{digits}f`. -/
def formatFixed (digits : ℕ) (q : ℚ) : FixedStr :=
  let scaled : ℤ := ⌊q * (10 : ℚ) ^ digits + 1 / 2⌋
  { neg := decide (scaled < 0)
    ipart := scaled.natAbs / 10 ^ digits
    frac := fracDigitChars digits (scaled.natAbs % 10 ^ digits) }

/-- One `KEY:VALUE` field of the wire line. -/
structure EncField where
  key : String
  value : FixedStr
  deriving DecidableEq

def renderFixed (f : FixedStr) : String :=
  (if f.neg then ("-") else ("")) ++ Nat.repr f.ipart ++ (".") ++ String.mk f.frac

def renderField (f : EncField) : String :=
  f.key ++ (":") ++ renderFixed f.value

/-- Fields of the drone wire line, in the order of the f-string of
`DroneSimulation.get_serial_data` (argument order follows the f-string). -/
def droneSerialFields (temp turb cond ph dox lat lon bat : ℚ) : List EncField :=
  [ { key := "TEMP", value := formatFixed 1 temp },
    { key := "TURB", value := formatFixed 1 turb },
    { key := "EC", value := formatFixed 1 cond },
    { key := "PH", value := formatFixed 1 ph },
    { key := "DO", value := formatFixed 1 dox },
    { key := "LAT", value := formatFixed 6 lat },
    { key := "LON", value := formatFixed 6 lon },
    { key := "BAT", value := formatFixed 1 bat } ]

/-- The drone wire line itself: the fields joined by `|`. -/
def droneSerialLine (temp turb cond ph dox lat lon bat : ℚ) : String :=
  String.intercalate ("|") ((droneSerialFields temp turb cond ph dox lat lon bat).map
    renderField)

/-- Fields of the buoy wire line, in the order of the f-string of
`BuoySimulation.get_serial_data`. -/
def buoySerialFields (temp turb cond ph dox press wave current airTemp wind hum bat
    solar lat lon : ℚ) : List EncField :=
  [ { key := "TEMP", value := formatFixed 1 temp },
    { key := "TURB", value := formatFixed 1 turb },
    { key := "EC", value := formatFixed 1 cond },
    { key := "PH", value := formatFixed 1 ph },
    { key := "DO", value := formatFixed 1 dox },
    { key := "PRESS", value := formatFixed 1 press },
    { key := "WAVE", value := formatFixed 1 wave },
    { key := "CURRENT", value := formatFixed 1 current },
    { key := "AIR_TEMP", value := formatFixed 1 airTemp },
    { key := "WIND", value := formatFixed 1 wind },
    { key := "HUM", value := formatFixed 1 hum },
    { key := "BAT", value := formatFixed 1 bat },
    { key := "SOLAR", value := formatFixed 1 solar },
    { key := "LAT", value := formatFixed 6 lat },
    { key := "LON", value := formatFixed 6 lon } ]

/-- The buoy wire line itself: the fields joined by `|`. -/
def buoySerialLine (temp turb cond ph dox press wave current airTemp wind hum bat
    solar lat lon : ℚ) : String :=
  String.intercalate ("|") ((buoySerialFields temp turb cond ph dox press wave current
    airTemp wind hum bat solar lat lon).map renderField)

/-! ## Drone acquisition state and simulator tick (src/app.py)

The module-level drone globals (lines 80-105) become one state record; one
iteration of `drone_data_simulator` (lines 359-446) becomes a step function
taking the wall-clock time and the random draws of that iteration as explicit
oracle inputs.  `connect_to_drone` (lines 267-303) and the read-only
`data_logger` iteration are further operations on the same state, so that
which operations touch which fields is explicit. -/

/-- Random draws and trigonometric terms consumed by one iteration of
`drone_data_simulator`.  The `*Noise` fields are the `random.uniform` draws of
whichever branch runs, the `*Trend` fields are the `np.sin(time.time()/...)`
values of the normal branch, `phSignPos` is the `random.random() > 0.5` coin
of the ballast pH term, and `rechargeDraw` is the `random.random() < 0.05`
recharge coin. -/
structure DroneRng where
  startDraw : Bool
  newDuration : ℚ
  tempNoise : ℚ
  turbNoise : ℚ
  condNoise : ℚ
  phNoise : ℚ
  doxNoise : ℚ
  phSignPos : Bool
  tempTrend : ℚ
  turbTrend : ℚ
  condTrend : ℚ
  phTrend : ℚ
  doxTrend : ℚ
  latOffset : ℚ
  lonOffset : ℚ
  rechargeDraw : Bool

/-- The drone-side module globals of src/app.py: the five `latest_drone_*`
channel values (Python `None` before the first update), position, battery,
`drone_connected`, `drone_reconnect_attempts`, and the ballast-event state
(`ballast_event`/`ballast_start_time`/`ballast_duration`, collapsed to the
start time and duration of the active event, if any). -/
structure DroneState where
  turbidity : Option ℚ
  temperature : Option ℚ
  conductivity : Option ℚ
  ph : Option ℚ
  dox : Option ℚ
  latitude : ℚ
  longitude : ℚ
  battery : ℚ
  connected : Bool
  reconnect_attempts : ℕ
  ballast : Option (ℚ × ℚ)
  deriving DecidableEq

/-- Initial values of the drone globals (src/app.py lines 96-105):
channels unset, home position, battery 85, `drone_connected = True`,
no reconnect attempts, no ballast event. -/
def droneInit : DroneState :=
  { turbidity := none, temperature := none, conductivity := none, ph := none
    dox := none, latitude := 4.2105, longitude := 6.4375, battery := 85.0
    connected := true, reconnect_attempts := 0, ballast := none }

/-- Raw (pre-clamp) channel values of one simulator iteration. -/
structure DroneChannels where
  temperature : ℚ
  turbidity : ℚ
  conductivity : ℚ
  ph : ℚ
  dox : ℚ

/-- Lines 372-399 of src/app.py: while a ballast event is active and its
elapsed time is below its duration, each channel is the base value plus a
channel coefficient times the parabolic intensity `4·p·(1-p)` (`p` =
elapsed/duration) plus a noise draw; once elapsed reaches the duration the
event ends and — like when no event is active — the channels take base value
plus noise plus a slow sinusoidal trend (the turbidity one is additionally
floored at 0 inside the normal branch). -/
def droneTickChannels (now : ℚ) (r : DroneRng) (ballast0 : Option (ℚ × ℚ)) :
    DroneChannels × Option (ℚ × ℚ) :=
  let normal : DroneChannels :=
    { temperature := 28 + r.tempNoise + 0.5 * r.tempTrend
      turbidity := max 0 (35 + r.turbNoise + 2 * r.turbTrend)
      conductivity := 10 + r.condNoise + 0.3 * r.condTrend
      ph := 7 + r.phNoise + 0.1 * r.phTrend
      dox := 6 + r.doxNoise + 0.2 * r.doxTrend }
  match ballast0 with
  | none => (normal, none)
  | some (t0, dur) =>
    if now - t0 < dur then
      let progress := (now - t0) / dur
      let intensity := 4 * progress * (1 - progress)
      ({ temperature := 28 + 4 * intensity + r.tempNoise
         turbidity := 35 + 20 * intensity + r.turbNoise
         conductivity := 10 + 6 * intensity + r.condNoise
         ph := 7 + (if r.phSignPos then 0.8 * intensity else -0.8 * intensity) +
           r.phNoise
         dox := 6 - 2 * intensity + r.doxNoise },
       some (t0, dur))
    else
      (normal, none)

/-- Lines 365-369 of src/app.py: when no ballast event is active, a 10 percent
per-iteration draw starts one at the current time with a random 30-180 second
duration; an already-active event is kept. -/
def droneBallastStart (now : ℚ) (r : DroneRng) (ballast : Option (ℚ × ℚ)) :
    Option (ℚ × ℚ) :=
  match ballast with
  | none => if r.startDraw then some (now, r.newDuration) else none
  | some b => some b

/-- One iteration of the loop body of `drone_data_simulator` (src/app.py
lines 359-446): possibly start a ballast event (line 365), compute the channel
values (lines 372-399), clamp every channel to its bounds (lines 402-406),
random-walk the position with return-to-center pull and a bounding box (lines
409-425), drain the battery with a floor of 10 and a probabilistic recharge
below 20 (lines 428-434), and unconditionally set `drone_connected = True`
(line 437). -/
def droneSimTick (now : ℚ) (r : DroneRng) (s : DroneState) : DroneState :=
  let ballast0 := droneBallastStart now r s.ballast
  let cb := droneTickChannels now r ballast0
  let lat1 := s.latitude + r.latOffset + (4.2105 - s.latitude) * 0.01
  let lon1 := s.longitude + r.lonOffset + (6.4375 - s.longitude) * 0.01
  let battery_drain : ℚ := if cb.2.isSome then 0.005 else 0.003
  let battery1 := max 10 (s.battery - battery_drain)
  let battery2 :=
    if battery1 < 20 ∧ r.rechargeDraw then min 100 (battery1 + 30) else battery1
  { turbidity := some (max 0 (min 60 cb.1.turbidity))
    temperature := some (max 20 (min 36 cb.1.temperature))
    conductivity := some (max 5 (min 18 cb.1.conductivity))
    ph := some (max 6.0 (min 8.2 cb.1.ph))
    dox := some (max 3.0 (min 10.0 cb.1.dox))
    latitude := max (4.2105 - 0.001) (min (4.2105 + 0.001) lat1)
    longitude := max (6.4375 - 0.001) (min (6.4375 + 0.001) lon1)
    battery := battery2
    connected := true
    reconnect_attempts := s.reconnect_attempts
    ballast := cb.2 }

/-- Normal-branch turbidity after the line 403 clamp, for stating that after a
ballast event ends the override is no longer applied. -/
def droneNormalTurbidity (r : DroneRng) : ℚ :=
  max 0 (min 60 (max 0 (35 + r.turbNoise + 2 * r.turbTrend)))

/-- The operations of src/app.py that write the drone-side globals:
`connect_to_drone` with the outcome of the `serial.Serial` open call (lines
290-303; the post-open `flushInput` is modelled as non-failing), one simulator
iteration, and one (read-only on these globals) `data_logger` iteration. -/
inductive DroneOp where
  | connect (openOk : Bool)
  | simTick (now : ℚ) (r : DroneRng)
  | logTick

/-- Effect of each operation on the drone globals.  A successful
`connect_to_drone` sets `drone_connected = True` and resets
`drone_reconnect_attempts` to 0 (lines 291-292); a failed one sets
`drone_connected = False` and increments the counter (lines 300-301);
`data_logger` only reads. -/
def droneStep : DroneOp → DroneState → DroneState
  | .connect true, s => { s with connected := true, reconnect_attempts := 0 }
  | .connect false, s =>
    { s with connected := false, reconnect_attempts := s.reconnect_attempts + 1 }
  | .simTick now r, s => droneSimTick now r s
  | .logTick, s => s

/-- States of the drone globals reachable from process start under any
interleaving of the operations. -/
inductive ReachableDrone : DroneState → Prop
  | init : ReachableDrone droneInit
  | step (op : DroneOp) {s : DroneState} :
      ReachableDrone s → ReachableDrone (droneStep op s)

/-- Snapshot returned by the `/api/drone/real-time` route (src/app.py,
`get_drone_real_time_data`, lines 1065-1089): the latest channel values,
position, battery and the `drone_connected` flag (the threshold constants it
also reports are fixed configuration). -/
structure DroneSnapshot where
  turbidity : Option ℚ
  temperature : Option ℚ
  conductivity : Option ℚ
  ph : Option ℚ
  dox : Option ℚ
  latitude : ℚ
  longitude : ℚ
  battery : ℚ
  connected : Bool

def get_drone_real_time_data (s : DroneState) : DroneSnapshot :=
  { turbidity := s.turbidity, temperature := s.temperature
    conductivity := s.conductivity, ph := s.ph, dox := s.dox
    latitude := s.latitude, longitude := s.longitude, battery := s.battery
    connected := s.connected }

/-! ## Battery of the standalone drone simulation (src/simulation.py,
DroneSimulation.update_position, lines 76-107)

When a position update runs and the drone is not yet at its waypoint (the
moving branch), the battery is updated by `self.battery = max(0,
self.battery - 0.005)` — floored at zero, with no recharge anywhere in
`DroneSimulation`.  Whether the moving branch runs depends on wall-clock
timing and waypoint geometry, so it is an oracle input here. -/

def update_position_battery (moving : Bool) (battery : ℚ) : ℚ :=
  if moving then max 0 (battery - 0.005) else battery

/-- Battery of `DroneSimulation` after `k` moving position updates, starting
from the constructor value 85.0 (src/simulation.py line 59). -/
def droneSimulationBattery : ℕ → ℚ
  | 0 => 85.0
  | k + 1 => update_position_battery true (droneSimulationBattery k)

/-- Outcome of `connect_to_buoy` (src/app.py lines 306-338) on the pair
(`buoy_connected`, `buoy_reconnect_attempts`), given whether the
`serial.Serial` open call succeeds. -/
def connect_to_buoy_result (openOk : Bool) (attempts : ℕ) : Bool × ℕ :=
  if openOk then (true, 0) else (false, attempts + 1)

/-- Concrete random-draw record with every noise, trend and offset at 0 and
every coin false except the ballast pH sign, for evaluating the tick at
concrete inputs. -/
def droneRngZero : DroneRng :=
  { startDraw := false, newDuration := 0, tempNoise := 0, turbNoise := 0
    condNoise := 0, phNoise := 0, doxNoise := 0, phSignPos := true
    tempTrend := 0, turbTrend := 0, condTrend := 0, phTrend := 0, doxTrend := 0
    latOffset := 0, lonOffset := 0, rechargeDraw := false }

/-- Concrete drone state with a ballast event active since time 0 with a 60
second duration. -/
def droneBallastState : DroneState :=
  { droneInit with ballast := some (0, 60) }

/-! ## Theorems -/

/-- C1: for every Numeric Signal Model with base `b` and nonnegative variation
range `a` (every instance constructed in the source uses a positive range), and
for every value of the sinusoidal factor and the noise draw, the returned value
lies within the closed interval `[b - a, b + a]`: the clamp is applied after the
trend term and the noise are added, so no out-of-bound value is returned. -/
theorem sensor_value_within_bounds (base_value variation_range time_factor noise : ℚ)
    (ha : 0 ≤ variation_range) :
    base_value - variation_range ≤
        SensorSimulator.get_value base_value variation_range time_factor noise ∧
      SensorSimulator.get_value base_value variation_range time_factor noise ≤
        base_value + variation_range := by
  unfold SensorSimulator.get_value
  constructor
  · exact le_max_left _ _
  · exact max_le (by linarith) (le_trans (min_le_right _ _) le_rfl)

/-- Witness for C1 at the drone turbidity instance (base 15, range 30),
sinusoidal factor 1 and noise 0. -/
theorem sensor_value_within_bounds_witness :
    (0 : ℚ) ≤ 30 ∧
      ((15 : ℚ) - 30 ≤ SensorSimulator.get_value 15 30 1 0 ∧
        SensorSimulator.get_value 15 30 1 0 ≤ 15 + 30) :=
  ⟨by norm_num, sensor_value_within_bounds 15 30 1 0 (by norm_num)⟩

/-- C2: when all five drone channels are present, `data_logger` creates a
`SystemAlert` row if and only if the counted violations reach
`ALERT_THRESHOLD`; in particular a count equal to the threshold fires and a
count equal to threshold minus one does not. -/
theorem alert_iff_count_ge_threshold (turb temp cond ph dox : ℚ) :
    ((droneLogEval turb temp cond ph dox).alert.isSome = true ↔
        ALERT_THRESHOLD ≤ droneThresholdCount turb temp cond ph dox) ∧
      (droneThresholdCount turb temp cond ph dox = ALERT_THRESHOLD →
        (droneLogEval turb temp cond ph dox).alert.isSome = true) ∧
      (droneThresholdCount turb temp cond ph dox = ALERT_THRESHOLD - 1 →
        (droneLogEval turb temp cond ph dox).alert.isSome = false) := by
  refine ⟨?_, ?_, ?_⟩
  · unfold droneLogEval
    by_cases h : ALERT_THRESHOLD ≤ droneThresholdCount turb temp cond ph dox <;>
      simp [h, ge_iff_le]
  · intro h
    unfold droneLogEval
    simp [h, ge_iff_le]
  · intro h
    unfold droneLogEval
    simp [h, ALERT_THRESHOLD, ge_iff_le]

/-- Witness for C2: a reading with exactly three violations (turbidity 45,
temperature 33, conductivity 13, pH 7.0 in band, DO 6.0 above bound) fires an
alert, and a reading with exactly two violations (same but conductivity 10)
does not. -/
theorem alert_iff_count_ge_threshold_witness :
    (droneLogEval 45 33 13 7.0 6.0).alert.isSome = true ∧
      (droneLogEval 45 33 10 7.0 6.0).alert.isSome = false := by
  constructor
  · exact (alert_iff_count_ge_threshold 45 33 13 7.0 6.0).2.1 (by
      unfold droneThresholdCount ALERT_THRESHOLD
      norm_num [DRONE_TURBIDITY_THRESHOLD, DRONE_TEMPERATURE_THRESHOLD,
        DRONE_CONDUCTIVITY_THRESHOLD, DRONE_PH_THRESHOLD_LOW,
        DRONE_PH_THRESHOLD_HIGH, DRONE_DO_THRESHOLD])
  · exact (alert_iff_count_ge_threshold 45 33 10 7.0 6.0).2.2 (by
      unfold droneThresholdCount ALERT_THRESHOLD
      norm_num [DRONE_TURBIDITY_THRESHOLD, DRONE_TEMPERATURE_THRESHOLD,
        DRONE_CONDUCTIVITY_THRESHOLD, DRONE_PH_THRESHOLD_LOW,
        DRONE_PH_THRESHOLD_HIGH, DRONE_DO_THRESHOLD])

/-- C3: the drone reading with temperature 33.5, turbidity 45.0, conductivity
13.0, pH 6.2 and dissolved oxygen 4.0, evaluated by `data_logger` against the
default drone thresholds with minimum count 3, counts exactly 5 violated
channels, sets `above_threshold`, and emits an alert carrying the count. -/
theorem scenario_a_five_violations_alert :
    data_logger_drone (some 45.0) (some 33.5) (some 13.0) (some 6.2) (some 4.0) =
      some { threshold_count := 5, above_threshold := true, alert := some 5 } := by
  unfold data_logger_drone droneLogEval droneThresholdCount
  norm_num [DRONE_TURBIDITY_THRESHOLD, DRONE_TEMPERATURE_THRESHOLD,
    DRONE_CONDUCTIVITY_THRESHOLD, DRONE_PH_THRESHOLD_LOW,
    DRONE_PH_THRESHOLD_HIGH, DRONE_DO_THRESHOLD, ALERT_THRESHOLD]

/-- C6 counterexample: the same four violating present channels as scenario A
but with dissolved oxygen missing — `data_logger` skips the whole drone block
(`drone_data_available` is false), so no evaluation happens and no alert is
emitted, although the claim as stated says the remaining present channels are
still evaluated. -/
theorem missing_channel_suppresses_evaluation :
    data_logger_drone (some 45.0) (some 33.5) (some 13.0) (some 6.2) none = none := rfl

/-- C6 amended: a missing channel value is never counted as violating because
any missing value makes `data_logger` skip the entire drone evaluation for
that tick — no row, no violation counting and no alert; only when all five
values are present does the evaluation take place. -/
theorem missing_channel_skips_block (turb temp cond ph dox : Option ℚ) :
    ((turb = none ∨ temp = none ∨ cond = none ∨ ph = none ∨ dox = none) →
        data_logger_drone turb temp cond ph dox = none) ∧
      (∀ tu te co p d : ℚ,
        data_logger_drone (some tu) (some te) (some co) (some p) (some d) =
          some (droneLogEval tu te co p d)) := by
  constructor
  · intro h
    match turb, temp, cond, ph, dox with
    | none, _, _, _, _ => rfl
    | some _, none, _, _, _ => rfl
    | some _, some _, none, _, _ => rfl
    | some _, some _, some _, none, _ => rfl
    | some _, some _, some _, some _, none => rfl
    | some _, some _, some _, some _, some _ => simp at h
  · intro tu te co p d
    rfl

/-- Witness for C6 amended: a reading missing its turbidity value is skipped,
and a fully-present reading is evaluated. -/
theorem missing_channel_skips_block_witness :
    data_logger_drone none (some 33.5) (some 13.0) (some 6.2) (some 4.0) = none ∧
      data_logger_drone (some 45.0) (some 33.5) (some 13.0) (some 6.2) (some 4.0) =
        some (droneLogEval 45.0 33.5 13.0 6.2 4.0) := by
  constructor
  · exact (missing_channel_skips_block none (some 33.5) (some 13.0) (some 6.2)
      (some 4.0)).1 (Or.inl rfl)
  · exact (missing_channel_skips_block (some 45.0) (some 33.5) (some 13.0) (some 6.2)
      (some 4.0)).2 45.0 33.5 13.0 6.2 4.0

/-- Helper: the hint search returns nothing when no enumerated port satisfies
the hint. -/
theorem findHintPort_eq_none (hint : PortInfo → Bool) :
    ∀ l : List PortInfo, (∀ q ∈ l, hint q = false) → findHintPort hint l = none := by
  intro l hl
  induction l with
  | nil => rfl
  | cons p rest ih =>
    unfold findHintPort
    rw [hl p (by simp)]
    simp only [Bool.false_eq_true, if_false]
    exact ih fun q hq => hl q (by simp [hq])

/-- Helper: the hint search returns the device of the first satisfying port. -/
theorem findHintPort_first_match (hint : PortInfo → Bool) :
    ∀ (l₁ : List PortInfo) (p : PortInfo) (l₂ : List PortInfo),
      (∀ q ∈ l₁, hint q = false) → hint p = true →
      findHintPort hint (l₁ ++ p :: l₂) = some p.device := by
  intro l₁ p l₂ h₁ hp
  induction l₁ with
  | nil => simp [findHintPort, hp]
  | cons q rest ih =>
    have hq : hint q = false := h₁ q (by simp)
    simp only [List.cons_append, findHintPort, hq, Bool.false_eq_true, if_false]
    exact ih fun r hr => h₁ r (by simp [hr])

/-- C8 counterexample: with a single enumerated port COM7 (description
Bluetooth Device) that matches neither buoy hint, `connect_to_buoy` opens the
configured fallback COM5 instead of the first enumerated port COM7, so the
selection policy claimed for both units does not hold for the buoy. -/
theorem buoy_port_skips_enumerated :
    connect_to_buoy_port [{ device := "COM7", description := "Bluetooth Device" }] =
        "COM5" ∧
      ("COM7" : String) ≠ "COM5" := by
  exact ⟨rfl, by decide⟩

/-- C8 amended: the drone selection follows hint-match (description contains
Arduino or USB), else first enumerated port, else fallback COM4; the buoy
selection follows hint-match (device — not description — contains COM5 or
ttyUSB), else the fallback COM5 directly, never the first enumerated port. -/
theorem port_selection_policy :
    (connect_to_drone_port [] = DRONE_SERIAL_PORT) ∧
      (∀ (p : PortInfo) (l : List PortInfo),
        (∀ q ∈ p :: l, dronePortHint q = false) →
        connect_to_drone_port (p :: l) = p.device) ∧
      (∀ (l₁ : List PortInfo) (p : PortInfo) (l₂ : List PortInfo),
        (∀ q ∈ l₁, dronePortHint q = false) → dronePortHint p = true →
        connect_to_drone_port (l₁ ++ p :: l₂) = p.device) ∧
      (connect_to_buoy_port [] = BUOY_SERIAL_PORT) ∧
      (∀ l : List PortInfo,
        (∀ q ∈ l, buoyPortHint q = false) →
        connect_to_buoy_port l = BUOY_SERIAL_PORT) ∧
      (∀ (l₁ : List PortInfo) (p : PortInfo) (l₂ : List PortInfo),
        (∀ q ∈ l₁, buoyPortHint q = false) → buoyPortHint p = true →
        connect_to_buoy_port (l₁ ++ p :: l₂) = p.device) := by
  refine ⟨rfl, ?_, ?_, rfl, ?_, ?_⟩
  · intro p l h
    unfold connect_to_drone_port
    rw [findHintPort_eq_none dronePortHint (p :: l) h]
  · intro l₁ p l₂ h₁ hp
    unfold connect_to_drone_port
    rw [findHintPort_first_match dronePortHint l₁ p l₂ h₁ hp]
  · intro l h
    unfold connect_to_buoy_port
    rw [findHintPort_eq_none buoyPortHint l h]
  · intro l₁ p l₂ h₁ hp
    unfold connect_to_buoy_port
    rw [findHintPort_first_match buoyPortHint l₁ p l₂ h₁ hp]

/-- Witness for C8 amended: a port described as an Arduino Uno is chosen by the
drone search, and the buoy falls back to COM5 when its only enumerated port
matches no buoy hint. -/
theorem port_selection_policy_witness :
    connect_to_drone_port [{ device := "COM3", description := "Arduino Uno" }] =
        "COM3" ∧
      connect_to_buoy_port [{ device := "COM7", description := "Bluetooth Device" }] =
        BUOY_SERIAL_PORT := by
  constructor
  · exact port_selection_policy.2.2.1 []
      { device := "COM3", description := "Arduino Uno" } [] (by simp) (by decide)
  · exact port_selection_policy.2.2.2.2.1
      [{ device := "COM7", description := "Bluetooth Device" }] (by decide)

/-- Helper: a fixed-point rendering always carries exactly the requested
number of fraction digit characters. -/
theorem fracDigitChars_length (d n : ℕ) : (fracDigitChars d n).length = d := by
  induction d generalizing n with
  | zero => rfl
  | succ d ih => simp [fracDigitChars, ih]

/-- Helper: `formatFixed digits q` has exactly `digits` decimal places. -/
theorem formatFixed_frac_length (digits : ℕ) (q : ℚ) :
    (formatFixed digits q).frac.length = digits := by
  simp [formatFixed, fracDigitChars_length]

/-- C7 counterexample: the drone wire line for the documentation example
reading (temperature 28, turbidity 15, conductivity 8, pH 7.2, DO 6.5,
position 4.2105/6.4375, battery 85) renders its eight numeric fields with
[1,1,1,1,1,6,6,1] decimal places — the LAT and LON fields use six, so not
every numeric field has exactly one decimal place as claimed. -/
theorem drone_line_not_all_one_decimal :
    ((droneSerialFields 28 15 8 7.2 6.5 4.2105 6.4375 85).map
        fun f => f.value.frac.length) = [1, 1, 1, 1, 1, 6, 6, 1] ∧
      ((droneSerialFields 28 15 8 7.2 6.5 4.2105 6.4375 85).all
        fun f => f.value.frac.length == 1) = false := by
  constructor
  · simp [droneSerialFields, formatFixed_frac_length]
  · simp [droneSerialFields, List.all, formatFixed_frac_length]

/-- C7 amended: for every reading, both wire lines list the channel keys in a
fixed order and join the rendered fields with `|`; the water-quality, weather
and energy fields carry exactly one decimal place while the LAT and LON fields
carry exactly six. -/
theorem serial_line_format (temp turb cond ph dox press wave current airTemp wind
    hum bat solar lat lon : ℚ) :
    ((droneSerialFields temp turb cond ph dox lat lon bat).map fun f => f.key) =
        ["TEMP", "TURB", "EC", "PH", "DO", "LAT", "LON", "BAT"] ∧
      ((droneSerialFields temp turb cond ph dox lat lon bat).map
        fun f => f.value.frac.length) = [1, 1, 1, 1, 1, 6, 6, 1] ∧
      droneSerialLine temp turb cond ph dox lat lon bat =
        String.intercalate ("|")
          ((droneSerialFields temp turb cond ph dox lat lon bat).map renderField) ∧
      ((buoySerialFields temp turb cond ph dox press wave current airTemp wind hum bat
          solar lat lon).map fun f => f.key) =
        ["TEMP", "TURB", "EC", "PH", "DO", "PRESS", "WAVE", "CURRENT", "AIR_TEMP",
          "WIND", "HUM", "BAT", "SOLAR", "LAT", "LON"] ∧
      ((buoySerialFields temp turb cond ph dox press wave current airTemp wind hum bat
          solar lat lon).map fun f => f.value.frac.length) =
        [1, 1, 1, 1, 1, 1, 1, 1, 1, 1, 1, 1, 1, 6, 6] ∧
      buoySerialLine temp turb cond ph dox press wave current airTemp wind hum bat
          solar lat lon =
        String.intercalate ("|")
          ((buoySerialFields temp turb cond ph dox press wave current airTemp wind hum
            bat solar lat lon).map renderField) := by
  refine ⟨?_, ?_, rfl, ?_, ?_, rfl⟩
  · simp [droneSerialFields]
  · simp [droneSerialFields, formatFixed_frac_length]
  · simp [buoySerialFields]
  · simp [buoySerialFields, formatFixed_frac_length]

/-- C5: per unit, the reconnect-attempt counter becomes 0 exactly when the
connect operation succeeds in opening the serial port, every failed connect
attempt increments it, and no other operation on the drone globals (simulator
iteration, logger iteration) changes it: after any operation the counter is 0
only if that operation was a successful connect or the counter was already 0. -/
theorem reconnect_counter_semantics (s : DroneState) (op : DroneOp) (a : ℕ) :
    ((droneStep (.connect true) s).reconnect_attempts = 0) ∧
      ((droneStep (.connect false) s).reconnect_attempts =
        s.reconnect_attempts + 1) ∧
      (∀ (now : ℚ) (r : DroneRng),
        (droneStep (.simTick now r) s).reconnect_attempts =
          s.reconnect_attempts) ∧
      ((droneStep .logTick s).reconnect_attempts = s.reconnect_attempts) ∧
      ((droneStep op s).reconnect_attempts = 0 →
        op = DroneOp.connect true ∨ s.reconnect_attempts = 0) ∧
      (connect_to_buoy_result true a = (true, 0)) ∧
      (connect_to_buoy_result false a = (false, a + 1)) := by
  refine ⟨rfl, rfl, fun now r => rfl, rfl, ?_, rfl, rfl⟩
  intro h
  match op with
  | .connect true => exact Or.inl rfl
  | .connect false => exact absurd h (Nat.succ_ne_zero _)
  | .simTick now r => exact Or.inr h
  | .logTick => exact Or.inr h

/-- Witness for C5: from a state with 5 failed attempts, a successful connect
resets the counter to 0, a failed one raises it to 6, and the only-then
direction applied at the successful connect. -/
theorem reconnect_counter_semantics_witness :
    (droneStep (.connect true)
        { droneInit with reconnect_attempts := 5 }).reconnect_attempts = 0 ∧
      (droneStep (.connect false)
        { droneInit with reconnect_attempts := 5 }).reconnect_attempts = 6 ∧
      (DroneOp.connect true = DroneOp.connect true ∨
        ({ droneInit with reconnect_attempts := 5 } : DroneState).reconnect_attempts
          = 0) ∧
      connect_to_buoy_result true 5 = (true, 0) ∧
      connect_to_buoy_result false 5 = (false, 6) := by
  have h := reconnect_counter_semantics { droneInit with reconnect_attempts := 5 }
    (.connect true) 5
  exact ⟨h.1, h.2.1, h.2.2.2.2.1 h.1, h.2.2.2.2.2.1, h.2.2.2.2.2.2⟩

/-- C10: every iteration of the drone data simulator sets `drone_connected`
to `True` whatever the previous state was, and the real-time snapshot route
reports exactly that flag, so after any simulator tick the published
`connected` flag is `True` regardless of any actual serial-link state. -/
theorem simulator_forces_connected (now : ℚ) (r : DroneRng) (s : DroneState) :
    (droneStep (.simTick now r) s).connected = true ∧
      (get_drone_real_time_data (droneStep (.simTick now r) s)).connected = true :=
  ⟨rfl, rfl⟩

/-- Helper: the battery update of one simulator iteration (floor at 10, then
optional recharge capped at 100) always lands at 10 or above. -/
theorem battery_update_ge (prev drain : ℚ) (recharge : Bool) :
    10 ≤ (if max 10 (prev - drain) < 20 ∧ recharge then
      min 100 (max 10 (prev - drain) + 30) else max 10 (prev - drain)) := by
  have hfloor : (10 : ℚ) ≤ max 10 (prev - drain) := le_max_left _ _
  split_ifs
  · exact le_min (by norm_num) (by linarith)
  · exact hfloor

/-- Helper: one simulator iteration always leaves the battery at 10 or
above, whatever the previous state. -/
theorem droneSimTick_battery_ge (now : ℚ) (r : DroneRng) (s : DroneState) :
    10 ≤ (droneSimTick now r s).battery :=
  battery_update_ge s.battery
    (if (droneTickChannels now r (droneBallastStart now r s.ballast)).2.isSome
      then 0.005 else 0.003) r.rechargeDraw

/-- C9 amended: in every state of the drone globals reachable under the
operations of src/app.py, the battery is at least 10 and hence strictly
positive — the drain of `drone_data_simulator` floors it at 10 (line 429) and
it starts at 85. -/
theorem drone_battery_stays_positive (s : DroneState) (h : ReachableDrone s) :
    10 ≤ s.battery ∧ 0 < s.battery := by
  induction h with
  | init => constructor <;> norm_num [droneInit]
  | step op hs ih =>
    match op with
    | .connect true => exact ih
    | .connect false => exact ih
    | .logTick => exact ih
    | .simTick now r =>
      exact ⟨droneSimTick_battery_ge now r _,
        lt_of_lt_of_le (by norm_num) (droneSimTick_battery_ge now r _)⟩

/-- Witness for C9 amended, at the initial state. -/
theorem drone_battery_stays_positive_witness :
    10 ≤ droneInit.battery ∧ 0 < droneInit.battery :=
  drone_battery_stays_positive droneInit ReachableDrone.init

/-- Helper: closed form of the standalone simulation battery while it is
still draining: after `k ≤ 17000` moving updates it is `85 - k/200`. -/
theorem droneSimulationBattery_closed_form :
    ∀ k : ℕ, k ≤ 17000 → droneSimulationBattery k = 85 - (k : ℚ) / 200 := by
  intro k
  induction k with
  | zero => intro _; norm_num [droneSimulationBattery]
  | succ k ih =>
    intro hk
    have hb : droneSimulationBattery k = 85 - (k : ℚ) / 200 :=
      ih (Nat.le_of_succ_le hk)
    have hkq : ((k : ℚ) + 1) ≤ 17000 := by exact_mod_cast hk
    have h005 : (0.005 : ℚ) = 1 / 200 := by norm_num
    have hnn : (0 : ℚ) ≤ 85 - (k : ℚ) / 200 - 0.005 := by
      rw [h005]; linarith
    show update_position_battery true (droneSimulationBattery k) = _
    rw [hb]
    unfold update_position_battery
    rw [if_pos rfl, max_eq_right hnn, h005]
    push_cast
    ring

/-- C9 counterexample: in `DroneSimulation.update_position` of
src/simulation.py the per-tick drain is `max(0, battery - 0.005)` — floored at
zero, not at a positive minimum, and `DroneSimulation` has no recharge — so
after 17000 moving position updates from the initial 85.0 the battery equals
exactly zero, refuting the claim for the states reachable by repeated ticks of
this simulation. -/
theorem sim_battery_hits_zero :
    droneSimulationBattery 17000 = 0 ∧ ¬ 0 < droneSimulationBattery 17000 := by
  have hz : droneSimulationBattery 17000 = 0 := by
    rw [droneSimulationBattery_closed_form 17000 le_rfl]
    norm_num
  exact ⟨hz, by rw [hz]; norm_num⟩

/-- Helper: while the elapsed time of the active ballast event is below its
duration, every stored channel is the clamp of its base value plus its ballast
offset plus its noise draw — the offsets being 4, 20, 6 and -2 times the
parabolic intensity for temperature, turbidity, conductivity and dissolved
oxygen, and plus-or-minus 0.8 times the intensity for pH according to the
per-tick sign coin — and the event stays active. -/
theorem droneSimTick_ballast_active (now t0 dur : ℚ) (r : DroneRng) (s : DroneState)
    (hb : s.ballast = some (t0, dur)) (hlt : now - t0 < dur) :
    (droneSimTick now r s).temperature =
        some (max 20 (min 36
          (28 + 4 * (4 * ((now - t0) / dur) * (1 - (now - t0) / dur)) +
            r.tempNoise))) ∧
      (droneSimTick now r s).turbidity =
        some (max 0 (min 60
          (35 + 20 * (4 * ((now - t0) / dur) * (1 - (now - t0) / dur)) +
            r.turbNoise))) ∧
      (droneSimTick now r s).conductivity =
        some (max 5 (min 18
          (10 + 6 * (4 * ((now - t0) / dur) * (1 - (now - t0) / dur)) +
            r.condNoise))) ∧
      (droneSimTick now r s).ph =
        some (max 6.0 (min 8.2
          (7 + (if r.phSignPos
              then 0.8 * (4 * ((now - t0) / dur) * (1 - (now - t0) / dur))
              else -0.8 * (4 * ((now - t0) / dur) * (1 - (now - t0) / dur))) +
            r.phNoise))) ∧
      (droneSimTick now r s).dox =
        some (max 3.0 (min 10.0
          (6 - 2 * (4 * ((now - t0) / dur) * (1 - (now - t0) / dur)) +
            r.doxNoise))) ∧
      (droneSimTick now r s).ballast = some (t0, dur) := by
  unfold droneSimTick droneBallastStart droneTickChannels
  rw [hb]
  simp [hlt]

/-- Helper: once the elapsed time reaches the duration, the event is cleared
and the stored turbidity is the normal-branch value, without the parabolic
override. -/
theorem droneSimTick_ballast_ended (now t0 dur : ℚ) (r : DroneRng) (s : DroneState)
    (hb : s.ballast = some (t0, dur)) (hge : dur ≤ now - t0) :
    (droneSimTick now r s).ballast = none ∧
      (droneSimTick now r s).turbidity = some (droneNormalTurbidity r) := by
  unfold droneSimTick droneBallastStart droneTickChannels droneNormalTurbidity
  rw [hb]
  simp [not_lt.mpr hge]

/-- C4 counterexample: the pH channel has no fixed ballast coefficient — at
line 384 of src/app.py the sign of the 0.8 coefficient is redrawn from
`random.random() > 0.5` on every iteration.  Two mid-event iterations at the
same elapsed time 30 of the same duration-60 event, with every noise draw 0
and differing only in that coin, store pH 7.8 (offset +0.8 times intensity 1)
and pH 6.2 (offset -0.8 times intensity 1) respectively, so the per-channel
fixed-coefficient claim fails for pH. -/
theorem ballast_ph_coefficient_not_fixed :
    (droneSimTick 30 droneRngZero droneBallastState).ph = some 7.8 ∧
      (droneSimTick 30 { droneRngZero with phSignPos := false }
        droneBallastState).ph = some 6.2 ∧
      (7.8 : ℚ) ≠ 6.2 := by
  refine ⟨?_, ?_, by norm_num⟩
  · norm_num [droneSimTick, droneBallastStart, droneTickChannels, droneRngZero,
      droneBallastState, droneInit, min_def, max_def]
  · norm_num [droneSimTick, droneBallastStart, droneTickChannels, droneRngZero,
      droneBallastState, droneInit, min_def, max_def]

/-- C4 amended: while a ballast event with duration `dur` is active, at every
elapsed time below `dur` the simulator iteration applies an additive offset of
a channel coefficient times the parabolic intensity `4·p·(1-p)` (`p` =
elapsed/duration) to every affected channel, the clamps being the identity
there: the coefficients are fixed at 4 for temperature, 20 for turbidity, 6
for conductivity and -2 for dissolved oxygen, while the pH coefficient is
plus-or-minus 0.8 with its sign redrawn each iteration, so pH has no fixed
coefficient; at `p = 1/2` the stored turbidity is within the ±2 noise term of
35 + 20; and once the elapsed time reaches `dur` the event is back to idle and
the override is no longer applied.  The noise-bound hypotheses mirror the
uniform draw ranges of lines 381-385 of src/app.py. -/
theorem ballast_parabolic_override (s : DroneState) (now t0 dur : ℚ) (r : DroneRng)
    (hb : s.ballast = some (t0, dur)) (hdur : 0 < dur) (hel : 0 ≤ now - t0)
    (htemp : |r.tempNoise| ≤ 0.5) (hturb : |r.turbNoise| ≤ 2)
    (hcond : |r.condNoise| ≤ 0.3) (hph : |r.phNoise| ≤ 0.1)
    (hdox : |r.doxNoise| ≤ 0.2) :
    (now - t0 < dur →
      (droneSimTick now r s).temperature =
          some (28 + 4 * (4 * ((now - t0) / dur) * (1 - (now - t0) / dur)) +
            r.tempNoise) ∧
        (droneSimTick now r s).turbidity =
          some (35 + 20 * (4 * ((now - t0) / dur) * (1 - (now - t0) / dur)) +
            r.turbNoise) ∧
        (droneSimTick now r s).conductivity =
          some (10 + 6 * (4 * ((now - t0) / dur) * (1 - (now - t0) / dur)) +
            r.condNoise) ∧
        (droneSimTick now r s).ph =
          some (7 + (if r.phSignPos
              then 0.8 * (4 * ((now - t0) / dur) * (1 - (now - t0) / dur))
              else -0.8 * (4 * ((now - t0) / dur) * (1 - (now - t0) / dur))) +
            r.phNoise) ∧
        (droneSimTick now r s).dox =
          some (6 - 2 * (4 * ((now - t0) / dur) * (1 - (now - t0) / dur)) +
            r.doxNoise) ∧
        (droneSimTick now r s).ballast = some (t0, dur)) ∧
      (now - t0 = dur / 2 →
        ∃ v : ℚ, (droneSimTick now r s).turbidity = some v ∧
          |v - (35 + 20)| ≤ 2) ∧
      (dur ≤ now - t0 →
        (droneSimTick now r s).ballast = none ∧
          (droneSimTick now r s).turbidity = some (droneNormalTurbidity r)) := by
  obtain ⟨hteL, hteU⟩ := abs_le.mp htemp
  obtain ⟨htuL, htuU⟩ := abs_le.mp hturb
  obtain ⟨hcoL, hcoU⟩ := abs_le.mp hcond
  obtain ⟨hphL, hphU⟩ := abs_le.mp hph
  obtain ⟨hdoL, hdoU⟩ := abs_le.mp hdox
  have main : now - t0 < dur →
      (droneSimTick now r s).temperature =
          some (28 + 4 * (4 * ((now - t0) / dur) * (1 - (now - t0) / dur)) +
            r.tempNoise) ∧
        (droneSimTick now r s).turbidity =
          some (35 + 20 * (4 * ((now - t0) / dur) * (1 - (now - t0) / dur)) +
            r.turbNoise) ∧
        (droneSimTick now r s).conductivity =
          some (10 + 6 * (4 * ((now - t0) / dur) * (1 - (now - t0) / dur)) +
            r.condNoise) ∧
        (droneSimTick now r s).ph =
          some (7 + (if r.phSignPos
              then 0.8 * (4 * ((now - t0) / dur) * (1 - (now - t0) / dur))
              else -0.8 * (4 * ((now - t0) / dur) * (1 - (now - t0) / dur))) +
            r.phNoise) ∧
        (droneSimTick now r s).dox =
          some (6 - 2 * (4 * ((now - t0) / dur) * (1 - (now - t0) / dur)) +
            r.doxNoise) ∧
        (droneSimTick now r s).ballast = some (t0, dur) := by
    intro hlt
    obtain ⟨hT, hTu, hC, hP, hD, hBa⟩ :=
      droneSimTick_ballast_active now t0 dur r s hb hlt
    have hq0 : 0 ≤ (now - t0) / dur := div_nonneg hel hdur.le
    have hq1 : (now - t0) / dur < 1 := (div_lt_one hdur).mpr hlt
    set E := 4 * ((now - t0) / dur) * (1 - (now - t0) / dur) with hEdef
    have hi0 : 0 ≤ E := by rw [hEdef]; nlinarith
    have hi1 : E ≤ 1 := by
      rw [hEdef]; nlinarith [sq_nonneg (1 - 2 * ((now - t0) / dur))]
    have hoffU : (if r.phSignPos then 0.8 * E else -0.8 * E) ≤ 0.8 * E := by
      split_ifs
      · exact le_rfl
      · linarith
    have hoffL : -0.8 * E ≤ (if r.phSignPos then 0.8 * E else -0.8 * E) := by
      split_ifs
      · linarith
      · exact le_rfl
    refine ⟨?_, ?_, ?_, ?_, ?_, hBa⟩
    · have hub : 28 + 4 * E + r.tempNoise ≤ 36 := by linarith
      have hlb : (20 : ℚ) ≤ 28 + 4 * E + r.tempNoise := by linarith
      rw [hT, min_eq_right hub, max_eq_right hlb]
    · have hub : 35 + 20 * E + r.turbNoise ≤ 60 := by linarith
      have hlb : (0 : ℚ) ≤ 35 + 20 * E + r.turbNoise := by linarith
      rw [hTu, min_eq_right hub, max_eq_right hlb]
    · have hub : 10 + 6 * E + r.condNoise ≤ 18 := by linarith
      have hlb : (5 : ℚ) ≤ 10 + 6 * E + r.condNoise := by linarith
      rw [hC, min_eq_right hub, max_eq_right hlb]
    · have hub : 7 + (if r.phSignPos then 0.8 * E else -0.8 * E) + r.phNoise ≤
          8.2 := by linarith
      have hlb : (6.0 : ℚ) ≤
          7 + (if r.phSignPos then 0.8 * E else -0.8 * E) + r.phNoise := by
        linarith
      rw [hP, min_eq_right hub, max_eq_right hlb]
    · have hub : 6 - 2 * E + r.doxNoise ≤ 10.0 := by linarith
      have hlb : (3.0 : ℚ) ≤ 6 - 2 * E + r.doxNoise := by linarith
      rw [hD, min_eq_right hub, max_eq_right hlb]
  refine ⟨main, ?_, ?_⟩
  · intro heq
    have hlt : now - t0 < dur := by rw [heq]; linarith
    obtain ⟨_, mTu, _, _, _, _⟩ := main hlt
    refine ⟨35 + 20 * (4 * ((now - t0) / dur) * (1 - (now - t0) / dur)) +
      r.turbNoise, mTu, ?_⟩
    have hd0 : dur ≠ 0 := ne_of_gt hdur
    have hhalf : (now - t0) / dur = 1 / 2 := by rw [heq]; field_simp; ring
    rw [hhalf]
    have hcancel : 35 + 20 * (4 * (1 / 2 : ℚ) * (1 - 1 / 2)) + r.turbNoise -
        (35 + 20) = r.turbNoise := by ring
    rw [hcancel]
    exact hturb
  · intro hge
    exact droneSimTick_ballast_ended now t0 dur r s hb hge

/-- Witness for C4 amended: with the ballast event of duration 60 started at
time 0 and all noise draws at 0, the iteration at time 30 (progress one half,
intensity one) stores turbidity exactly 55 = 35 + 20 and, the sign coin being
true, pH exactly 7.8 = 7 + 0.8; at time 61 the event is cleared. -/
theorem ballast_parabolic_override_witness :
    (droneSimTick 30 droneRngZero droneBallastState).turbidity = some 55 ∧
      (droneSimTick 30 droneRngZero droneBallastState).ph = some 7.8 ∧
      (droneSimTick 61 droneRngZero droneBallastState).ballast = none := by
  have h30 := ballast_parabolic_override droneBallastState 30 0 60 droneRngZero rfl
    (by norm_num) (by norm_num) (by norm_num [droneRngZero])
    (by norm_num [droneRngZero]) (by norm_num [droneRngZero])
    (by norm_num [droneRngZero]) (by norm_num [droneRngZero])
  have h61 := ballast_parabolic_override droneBallastState 61 0 60 droneRngZero rfl
    (by norm_num) (by norm_num) (by norm_num [droneRngZero])
    (by norm_num [droneRngZero]) (by norm_num [droneRngZero])
    (by norm_num [droneRngZero]) (by norm_num [droneRngZero])
  obtain ⟨_, mTu, _, mP, _, _⟩ := h30.1 (by norm_num)
  refine ⟨?_, ?_, (h61.2.2 (by norm_num)).1⟩
  · rw [mTu]
    norm_num [droneRngZero]
  · rw [mP]
    norm_num [droneRngZero]
